import Mathlib

/-!
Verification of the hkl3D crystal-visualization scripts.

The Python sources (crystal3D.py, crystal_structure.py, plot_crystal.py) are
shallowly embedded below.  Modelling conventions:

* Python floats are modelled as exact numbers: parsed numeric fields as `ℚ`,
  arithmetic involving `math.sqrt` / trigonometry as `ℝ`.  Rounding is not
  modelled.
* Operations that can raise a Python exception (`float(...)`, `int(...)`,
  out-of-range list indexing, `math.sqrt` of a negative, division by zero in
  the lattice transform) are modelled with `Except PyError`.
* Python strings are modelled as Lean `String`s; `str.strip`, `str.split()`,
  `str.startswith` and the `in` substring test are implemented below on the
  character list.  `int(...)` / `float(...)` are modelled on plain decimal
  literals (optional sign, digits, optional fractional part), which covers the
  numeric fields of the file format at hand.
* A text file is a list of its lines (without trailing newlines).
-/

/-- Exceptions a modelled operation can raise. -/
inductive PyError where
  | indexError
  | valueError
  | zeroDivisionError
  | fileNotFound
  deriving DecidableEq, Repr

/-- Characters counted as whitespace by `str.split()` / `str.strip()`. -/
def pyWS (c : Char) : Bool := c.isWhitespace

/-- Prefix test on character lists. -/
def isPrefixL : List Char → List Char → Bool
  | [], _ => true
  | _ :: _, [] => false
  | p :: ps, c :: cs => p == c && isPrefixL ps cs

/-- Substring occurrence test on character lists (Python `pat in s`). -/
def containsL (pat : List Char) : List Char → Bool
  | [] => pat.isEmpty
  | c :: cs => isPrefixL pat (c :: cs) || containsL pat cs

/-- Python `pat in s`. -/
def pyContains (s pat : String) : Bool := containsL pat.data s.data

/-- Python `s.startswith(pre)`. -/
def pyStartsWith (s pre : String) : Bool := isPrefixL pre.data s.data

/-- Python `s.strip()` (strip leading and trailing whitespace). -/
def pyStrip (s : String) : String :=
  ⟨((s.data.dropWhile pyWS).reverse.dropWhile pyWS).reverse⟩

/-- Greedy non-whitespace token starting a character list, with the rest. -/
def takeTok : List Char → List Char × List Char
  | [] => ([], [])
  | c :: cs =>
    if pyWS c then ([], c :: cs)
    else
      match takeTok cs with
      | (t, r) => (c :: t, r)

/-- Whitespace splitting of a character list, dropping empty pieces
(Python `s.split()` with no argument). -/
def splitWSL : List Char → List (List Char)
  | [] => []
  | c :: cs =>
    if pyWS c then splitWSL cs
    else
      match cs with
      | [] => [[c]]
      | d :: _ =>
        if pyWS d then [c] :: splitWSL cs
        else
          match splitWSL cs with
          | [] => [[c]]
          | t :: ts => (c :: t) :: ts

/-- Python `line.split()`. -/
def pySplit (s : String) : List String := (splitWSL s.data).map (fun l => ⟨l⟩)

/-- Value of a nonempty all-digit character list. -/
def digitsValAux : List Char → ℕ → Option ℕ
  | [], acc => some acc
  | c :: cs, acc =>
    if c.isDigit then digitsValAux cs (acc * 10 + (c.toNat - 48)) else none

/-- Value of a nonempty all-digit character list (`none` otherwise). -/
def digitsVal : List Char → Option ℕ
  | [] => none
  | c :: cs => digitsValAux (c :: cs) 0

/-- Python `int(s)` on a plain decimal integer literal. -/
def pyInt (s : String) : Option ℤ :=
  match s.data with
  | '-' :: r => (digitsVal r).map (fun n => -(n : ℤ))
  | '+' :: r => (digitsVal r).map (fun n => (n : ℤ))
  | l => (digitsVal l).map (fun n => (n : ℤ))

/-- Split a character list at its first dot. -/
def splitOnDot : List Char → List Char × Option (List Char)
  | [] => ([], none)
  | c :: cs =>
    if c = '.' then ([], some cs)
    else
      match splitOnDot cs with
      | (a, b) => (c :: a, b)

/-- Python `float(s)` on a plain decimal literal
(optional sign, digits, optional single dot and fractional digits). -/
def pyFloat (s : String) : Option ℚ :=
  let (sgn, l) : ℚ × List Char :=
    match s.data with
    | '-' :: r => (-1, r)
    | '+' :: r => (1, r)
    | l => (1, l)
  match splitOnDot l with
  | (ip, none) => (digitsVal ip).map (fun n => sgn * (n : ℚ))
  | (ip, some fp) =>
    match digitsVal ip, digitsVal fp with
    | some i, some f => some (sgn * ((i : ℚ) + (f : ℚ) / (10 : ℚ) ^ fp.length))
    | some i, none => if fp = [] then some (sgn * (i : ℚ)) else none
    | none, some f => if ip = [] then some (sgn * ((f : ℚ) / (10 : ℚ) ^ fp.length)) else none
    | none, none => none

example : pyFloat "1.26" = some 1.26 := by with_unfolding_all rfl
example : pyFloat "-0.5" = some (-(1/2)) := by with_unfolding_all rfl
example : pyFloat "90" = some 90 := by with_unfolding_all rfl
example : pyFloat "90.0" = some 90 := by with_unfolding_all rfl
example : pyFloat "abc" = none := by rfl
example : pyInt "-12" = some (-12) := by decide
example : pyInt "3.5" = none := by decide
example : pySplit "  a bc  d " = ["a", "bc", "d"] := by decide
example : pyStrip "  # CELL x " = "# CELL x" := by decide
example : pyContains "ab cde f" "cde" = true := by decide
example : pyContains "ab cdf e" "cde" = false := by decide
example : pyStartsWith "# CELL 1 2" "# CELL" = true := by decide

/-- Atomic radius table (Å), transcribed from `ATOMIC_RADII` in crystal3D.py.
The dict literal in crystal_structure.py repeats some keys with identical
values; since later duplicates overwrite with the same value, both files
denote the same mapping, modelled once here as an association list looked up
with `List.lookup` (first match). -/
def ATOMIC_RADII : List (String × ℚ) := [
  ("Li", 1.52),
  ("Na", 1.86),
  ("K", 2.27),
  ("Rb", 2.48),
  ("Cs", 2.65),
  ("Fr", 2.80),
  ("Be", 1.12),
  ("Mg", 1.60),
  ("Ca", 1.97),
  ("Sr", 2.15),
  ("Ba", 2.22),
  ("Ra", 2.23),
  ("Sc", 1.61),
  ("Ti", 1.45),
  ("V", 1.34),
  ("Cr", 1.28),
  ("Mn", 1.27),
  ("Fe", 1.26),
  ("Co", 1.25),
  ("Ni", 1.24),
  ("Cu", 1.28),
  ("Zn", 1.39),
  ("Y", 1.78),
  ("Zr", 1.60),
  ("Nb", 1.46),
  ("Mo", 1.39),
  ("Tc", 1.36),
  ("Ru", 1.34),
  ("Rh", 1.34),
  ("Pd", 1.37),
  ("Ag", 1.44),
  ("Cd", 1.49),
  ("Hf", 1.59),
  ("Ta", 1.46),
  ("W", 1.39),
  ("Re", 1.37),
  ("Os", 1.35),
  ("Ir", 1.36),
  ("Pt", 1.39),
  ("Au", 1.44),
  ("Hg", 1.49),
  ("La", 1.87),
  ("Ce", 1.82),
  ("Pr", 1.82),
  ("Nd", 1.82),
  ("Pm", 1.81),
  ("Sm", 1.80),
  ("Eu", 1.80),
  ("Gd", 1.80),
  ("Tb", 1.78),
  ("Dy", 1.77),
  ("Ho", 1.76),
  ("Er", 1.75),
  ("Tm", 1.74),
  ("Yb", 1.94),
  ("Lu", 1.87),
  ("Ac", 1.88),
  ("Th", 1.80),
  ("Pa", 1.61),
  ("U", 1.55),
  ("Np", 1.55),
  ("Pu", 1.59),
  ("Am", 1.73),
  ("Cm", 1.74),
  ("Bk", 1.70),
  ("Cf", 1.86),
  ("Es", 1.86),
  ("Fm", 1.86),
  ("Md", 1.86),
  ("No", 1.86),
  ("Lr", 1.86),
  ("B", 0.85),
  ("C", 0.70),
  ("N", 0.65),
  ("O", 0.60),
  ("F", 0.50),
  ("Ne", 0.38),
  ("Al", 1.43),
  ("Si", 1.17),
  ("P", 1.10),
  ("S", 1.04),
  ("Cl", 0.99),
  ("Ar", 0.71),
  ("Ga", 1.22),
  ("Ge", 1.22),
  ("As", 1.19),
  ("Se", 1.17),
  ("Br", 1.14),
  ("Kr", 1.03),
  ("In", 1.63),
  ("Sn", 1.46),
  ("Sb", 1.46),
  ("Te", 1.47),
  ("I", 1.40),
  ("Xe", 1.24),
  ("Tl", 1.70),
  ("Pb", 1.54),
  ("Bi", 1.54),
  ("Po", 1.68),
  ("At", 1.40),
  ("Rn", 1.34),
  ("H", 0.31),
  ("He", 0.28)]

/-- Element display colors, transcribed from `ELEMENT_COLORS` (identical in
crystal3D.py and crystal_structure.py). -/
def ELEMENT_COLORS : List (String × String) := [
  ("Li", "#CC80FF"),
  ("Na", "#AB5CF2"),
  ("K", "#8F40D4"),
  ("Rb", "#9B4FDB"),
  ("Cs", "#AC7E20"),
  ("Fr", "#420D09"),
  ("Be", "#C2FF00"),
  ("Mg", "#8AFF00"),
  ("Ca", "#3DFF00"),
  ("Sr", "#00FF00"),
  ("Ba", "#00C754"),
  ("Ra", "#00D452"),
  ("Sc", "#E6E6E6"),
  ("Ti", "#BFC2C7"),
  ("V", "#A6A6AB"),
  ("Cr", "#8A99C7"),
  ("Mn", "#9C7AC7"),
  ("Fe", "#E06633"),
  ("Co", "#F090A0"),
  ("Ni", "#50D050"),
  ("Cu", "#C88033"),
  ("Zn", "#7D80B0"),
  ("Y", "#94FFFF"),
  ("Zr", "#94E0E0"),
  ("Nb", "#73C2C9"),
  ("Mo", "#54B5B5"),
  ("Tc", "#3B9E9E"),
  ("Ru", "#248F8F"),
  ("Rh", "#0A7D8C"),
  ("Pd", "#006985"),
  ("Ag", "#C0C0C0"),
  ("Cd", "#FFD98F"),
  ("Hf", "#4DC2FF"),
  ("Ta", "#4DA6FF"),
  ("W", "#2194D6"),
  ("Re", "#267DAB"),
  ("Os", "#266696"),
  ("Ir", "#175487"),
  ("Pt", "#D0D0E0"),
  ("Au", "#FFD123"),
  ("Hg", "#B8B8D0"),
  ("H", "#FFFFFF"),
  ("He", "#D9FFFF"),
  ("B", "#FFB5B5"),
  ("C", "#909090"),
  ("N", "#3050F8"),
  ("O", "#FF0D0D"),
  ("F", "#90E050"),
  ("Ne", "#B3E3F5"),
  ("Al", "#BFA6A6"),
  ("Si", "#F0C8A0"),
  ("P", "#FF8000"),
  ("S", "#FFFF30"),
  ("Cl", "#1FF01F"),
  ("Ar", "#80D1E3"),
  ("Ga", "#C28F8F"),
  ("Ge", "#668F8F"),
  ("As", "#BD80E3"),
  ("Se", "#FFA100"),
  ("Br", "#A62929"),
  ("Kr", "#5CB8D4"),
  ("In", "#A67573"),
  ("Sn", "#668080"),
  ("Sb", "#9E63B5"),
  ("Te", "#D47A00"),
  ("I", "#940094"),
  ("Xe", "#429EB0"),
  ("Tl", "#A6544D"),
  ("Pb", "#575961"),
  ("Bi", "#9E4FB5"),
  ("Po", "#AB5C00"),
  ("At", "#754F45"),
  ("Rn", "#428296"),
  ("La", "#70D4FF"),
  ("Ce", "#FFC700"),
  ("Pr", "#D9FFC7"),
  ("Nd", "#C7FFC7"),
  ("Pm", "#A3FFC7"),
  ("Sm", "#8FFFC7"),
  ("Eu", "#61FFC7"),
  ("Gd", "#45FFC7"),
  ("Tb", "#30FFC7"),
  ("Dy", "#1FFFC7"),
  ("Ho", "#00FF9C"),
  ("Er", "#00E675"),
  ("Tm", "#00D452"),
  ("Yb", "#00BF38"),
  ("Lu", "#00AB24"),
  ("Ac", "#70ABFA"),
  ("Th", "#00BAFF"),
  ("Pa", "#00A1FF"),
  ("U", "#008FFF"),
  ("Np", "#0080FF"),
  ("Pu", "#006BFF"),
  ("Am", "#545CF2"),
  ("Cm", "#785CE3"),
  ("Bk", "#8A4FE3"),
  ("Cf", "#A136D4"),
  ("Es", "#B31FD4"),
  ("Fm", "#B31FBA"),
  ("Md", "#B30DA6"),
  ("No", "#BD0D87"),
  ("Lr", "#C70066")]


/-- Python `''.join(filter(str.isalpha, element_symbol))`: keep only the
alphabetic characters of a symbol (so "Fe1" becomes "Fe"). -/
def stripAlpha (s : String) : String := ⟨s.data.filter Char.isAlpha⟩

/-- `get_atomic_radius` of crystal3D.py and crystal_structure.py: strip the
symbol, look it up in `ATOMIC_RADII`, default to `1.0` when unknown. -/
def get_atomic_radius (element_symbol : String) : ℚ :=
  match List.lookup (stripAlpha element_symbol) ATOMIC_RADII with
  | some r => r
  | none => 1

/-- `get_element_color` of crystal3D.py and crystal_structure.py: strip the
symbol, look it up in `ELEMENT_COLORS`, default to gray `"#808080"`. -/
def get_element_color (element_symbol : String) : String :=
  match List.lookup (stripAlpha element_symbol) ELEMENT_COLORS with
  | some c => c
  | none => "#808080"

example : get_atomic_radius "Fe1" = 1.26 := by with_unfolding_all rfl
example : get_atomic_radius "Qq7" = 1 := by rfl
example : get_element_color "O2" = "#FF0D0D" := by rfl

/-- One parsed `# Atom` record: fields 2..9 of the line
(name, x, y, z, B, occ, spin, charge). -/
structure Atom where
  name : String
  x : ℚ
  y : ℚ
  z : ℚ
  B : ℚ
  occ : ℚ
  spin : ℚ
  charge : ℚ
  deriving DecidableEq, Repr

/-- Lattice parameters parsed from a `# CELL` line. -/
structure LatticeParams where
  a : ℚ
  b : ℚ
  c : ℚ
  alpha : ℚ
  beta : ℚ
  gamma : ℚ
  deriving DecidableEq, Repr

/-- Default lattice parameters used by crystal_structure.py when no `# CELL`
line was found. -/
def defaultLattice : LatticeParams := ⟨1, 1, 1, 90, 90, 90⟩

/-- Fetch field `i` of a split line and parse it with `float(...)`:
a missing field raises `IndexError`, an unparsable one `ValueError`. -/
def getFloatField (parts : List String) (i : ℕ) : Except PyError ℚ :=
  match parts.get? i with
  | none => .error .indexError
  | some s =>
    match pyFloat s with
    | none => .error .valueError
    | some q => .ok q

/-- Parse fields 2..9 of an `# Atom` line with at least 10 fields
(`parts[2]` is the name, `float(parts[3..9])` the numeric fields). -/
def parseAtomFields (parts : List String) : Except PyError Atom := do
  let name := parts.getD 2 ""
  let x ← getFloatField parts 3
  let y ← getFloatField parts 4
  let z ← getFloatField parts 5
  let bv ← getFloatField parts 6
  let occ ← getFloatField parts 7
  let spin ← getFloatField parts 8
  let charge ← getFloatField parts 9
  .ok ⟨name, x, y, z, bv, occ, spin, charge⟩

/-- The atom-section column-header marker line content. -/
def atomHeaderMarker : String :=
  "X         Y         Z         B         Occ       Spin      Charge"

/-- The reflection-section column-header marker. -/
def reflMarker : String := "# H   K   L     Mult    dspc                   |Fc|^2"

/-- The `(h, k, l, |Fc|^2)` tuple of a split reflection line with at least 6
fields: `int(values[0])`, `int(values[1])`, `int(values[2])` and
`float(values[5])`; `none` when one of those calls would raise
`ValueError`. -/
def parseReflTuple (values : List String) : Option (ℤ × ℤ × ℤ × ℚ) :=
  match pyInt (values.getD 0 ""), pyInt (values.getD 1 ""), pyInt (values.getD 2 ""),
      pyFloat (values.getD 5 "") with
  | some h, some k, some l, some fc => some (h, k, l, fc)
  | _, _, _, _ => none

/-- Modelled from the claim's words: a post-header line yields a tuple when
it is non-blank, does not start with `#`, and has at least 6 fields. -/
def qualifiesRefl (line : String) : Bool :=
  !(pyStrip line == "") && (!(pyStartsWith line "#") &&
    decide (6 ≤ (pySplit line).length))

/-- Modelled from the claim's words: one tuple per qualifying line, in file
order (a qualifying line whose fields fail to parse contributes nothing
here; the theorem's hypotheses rule that case out). -/
def specReflTuples : List String → List (ℤ × ℤ × ℤ × ℚ)
  | [] => []
  | l :: ls =>
    if qualifiesRefl l then
      match parseReflTuple (pySplit l) with
      | some t => t :: specReflTuples ls
      | none => specReflTuples ls
    else specReflTuples ls


namespace crystal3D

/-- Loop of `read_crystal_structure` in crystal3D.py over the remaining lines,
carrying the atoms read so far and the `reading_atoms` flag.  Each stripped
line is skipped when blank; a line containing the column-header marker sets
the flag; once the flag is set, a line starting with `# Atom` and having at
least 10 fields contributes one atom (a malformed numeric field raises),
and shorter `# Atom` lines are skipped silently. -/
def readAux : List String → List Atom → Bool → Except PyError (List Atom)
  | [], atoms, _ => .ok atoms
  | line :: rest, atoms, reading_atoms =>
    let l := pyStrip line
    if l = "" then readAux rest atoms reading_atoms
    else if pyContains l atomHeaderMarker then readAux rest atoms true
    else if reading_atoms && pyStartsWith l "# Atom" then
      let parts := pySplit l
      if 10 ≤ parts.length then do
        let a ← parseAtomFields parts
        readAux rest (atoms ++ [a]) reading_atoms
      else readAux rest atoms reading_atoms
    else readAux rest atoms reading_atoms

/-- `read_crystal_structure` of crystal3D.py. -/
def read_crystal_structure (lines : List String) : Except PyError (List Atom) :=
  readAux lines [] false

/-- Loop of `read_hkl_reflections` (crystal3D.py) / `read_hkl_file`
(plot_crystal.py), which are identical line for line: skip everything before
the reflection header marker; afterwards each non-blank line that does not
start with `#` and has at least 6 fields yields `(int(parts[0]),
int(parts[1]), int(parts[2]), float(parts[5]))`, a malformed field raising
`ValueError`; shorter lines are ignored. -/
def readHKLAux : List String → Bool → Except PyError (List (ℤ × ℤ × ℤ × ℚ))
  | [], _ => .ok []
  | line :: rest, found_header =>
    if pyContains line reflMarker then readHKLAux rest true
    else if found_header && !(pyStrip line == "") && !(pyStartsWith line "#") then
      let values := pySplit line
      if 6 ≤ values.length then
        match parseReflTuple values with
        | some t => do
          let ts ← readHKLAux rest found_header
          .ok (t :: ts)
        | none => .error .valueError
      else readHKLAux rest found_header
    else readHKLAux rest found_header

/-- `read_hkl_reflections` of crystal3D.py. -/
def read_hkl_reflections (lines : List String) : Except PyError (List (ℤ × ℤ × ℤ × ℚ)) :=
  readHKLAux lines false

end crystal3D

namespace plot_crystal

/-- `read_hkl_file` of plot_crystal.py, line-for-line identical to
`read_hkl_reflections` of crystal3D.py. -/
def read_hkl_file (lines : List String) : Except PyError (List (ℤ × ℤ × ℤ × ℚ)) :=
  crystal3D.readHKLAux lines false

end plot_crystal

namespace crystal_structure

/-- Parse a stripped `# CELL` line already known to have at least 7 fields:
the six `float(parts[i])` calls for `i = 2..7` are made in order, so a line
with exactly 7 fields raises `IndexError` at `parts[7]`. -/
def parseCellFields (parts : List String) : Except PyError LatticeParams := do
  let a ← getFloatField parts 2
  let b ← getFloatField parts 3
  let c ← getFloatField parts 4
  let alpha ← getFloatField parts 5
  let beta ← getFloatField parts 6
  let gamma ← getFloatField parts 7
  .ok ⟨a, b, c, alpha, beta, gamma⟩

/-- Loop of `read_crystal_structure` in crystal_structure.py: like the
crystal3D reader but it additionally recognizes stripped lines starting with
`# CELL`; when such a line has at least 7 fields it (re)sets the lattice
parameters from fields 2..7, otherwise it is skipped. -/
def readAux : List String → List Atom → Option LatticeParams → Bool →
    Except PyError (List Atom × Option LatticeParams)
  | [], atoms, lattice_params, _ => .ok (atoms, lattice_params)
  | line :: rest, atoms, lattice_params, reading_atoms =>
    let l := pyStrip line
    if l = "" then readAux rest atoms lattice_params reading_atoms
    else if pyStartsWith l "# CELL" then
      let parts := pySplit l
      if 7 ≤ parts.length then do
        let lp ← parseCellFields parts
        readAux rest atoms (some lp) reading_atoms
      else readAux rest atoms lattice_params reading_atoms
    else if pyContains l atomHeaderMarker then readAux rest atoms lattice_params true
    else if reading_atoms && pyStartsWith l "# Atom" then
      let parts := pySplit l
      if 10 ≤ parts.length then do
        let a ← parseAtomFields parts
        readAux rest (atoms ++ [a]) lattice_params reading_atoms
      else readAux rest atoms lattice_params reading_atoms
    else readAux rest atoms lattice_params reading_atoms

/-- `read_crystal_structure` of crystal_structure.py: returns the atoms and
the lattice parameters, substituting the unit-cubic default when no `# CELL`
line was seen. -/
def read_crystal_structure (lines : List String) :
    Except PyError (List Atom × LatticeParams) :=
  (readAux lines [] none false).map (fun p => (p.1, p.2.getD defaultLattice))

end crystal_structure


/-- Python `min` over a nonempty list (`min(xs)`, or the crystal3D loop
folding `min` from `float('inf')`, which agrees on nonempty lists).  The
`[]` case is never reached by the guarded callers below; it is assigned the
arbitrary value `0`. -/
noncomputable def listMin : List ℝ → ℝ
  | [] => 0
  | d :: ds => ds.foldl min d

/-- Python `max` over a nonempty list, analogous to `listMin`. -/
noncomputable def listMax : List ℝ → ℝ
  | [] => 0
  | d :: ds => ds.foldl max d

/-- Python `math.radians`. -/
noncomputable def radians (d : ℝ) : ℝ := d * Real.pi / 180

namespace crystal3D

/-- Distance between two atoms as computed in the pair loops of
crystal3D.py: `math.sqrt(dx*dx + dy*dy + dz*dz)` on the raw coordinates. -/
noncomputable def atomDist (a1 a2 : Atom) : ℝ :=
  Real.sqrt (((a1.x : ℝ) - a2.x) * ((a1.x : ℝ) - a2.x) +
    ((a1.y : ℝ) - a2.y) * ((a1.y : ℝ) - a2.y) +
    ((a1.z : ℝ) - a2.z) * ((a1.z : ℝ) - a2.z))

/-- Distances of the double loop
`for i, atom1 in enumerate(atoms): for atom2 in atoms[i+1:]`, in order. -/
noncomputable def pairDists : List Atom → List ℝ
  | [] => []
  | a :: rest => rest.map (atomDist a) ++ pairDists rest

/-- The `min_distance` computed by `calculate_optimal_scale_factor`
(crystal3D.py) once at least one pair exists. -/
noncomputable def min_distance (atoms : List Atom) : ℝ := listMin (pairDists atoms)

/-- The `max_radius_sum` of `calculate_optimal_scale_factor` (crystal3D.py):
a `max` fold of the atomic radii starting from `0`, then doubled. -/
noncomputable def max_radius_sum (atoms : List Atom) : ℝ :=
  (atoms.foldl (fun m a => max m ((get_atomic_radius a.name : ℚ) : ℝ)) 0) * 2

/-- `calculate_optimal_scale_factor` of crystal3D.py.  The
`overlap_analysis` dict is modelled as its ordered key/value list. -/
noncomputable def calculate_optimal_scale_factor (atoms : List Atom)
    (target_overlap : ℝ) : ℝ × List (String × ℝ) :=
  if atoms.length < 2 then (1, [])
  else
    let md := min_distance atoms
    let mrs := max_radius_sum atoms
    let optimal_scale :=
      if 0 < mrs then
        if target_overlap ≤ 0 then md / mrs
        else if 1 ≤ target_overlap then (2 * md) / mrs
        else (md * (1 + target_overlap)) / mrs
      else 0.05
    let optimal_scale := max 0.01 (min 1 optimal_scale)
    let scaled_radius_sum := mrs * optimal_scale
    let overlap_with_optimal :=
      if 0 < scaled_radius_sum then max 0 ((scaled_radius_sum - md) / scaled_radius_sum)
      else 0
    (optimal_scale,
      [("min_distance", md),
       ("max_radius_sum", mrs),
       ("current_overlap_ratio", max 0 ((mrs - md) / mrs)),
       ("optimal_scale", optimal_scale),
       ("overlap_with_optimal", overlap_with_optimal),
       ("scaled_radius_sum", scaled_radius_sum),
       ("target_overlap", target_overlap)])

end crystal3D

namespace crystal_structure

/-- Angle `alpha` of a cell in radians (`alpha_rad` in the source). -/
noncomputable def alphaRad (lp : LatticeParams) : ℝ := radians (lp.alpha : ℝ)

/-- Angle `beta` of a cell in radians. -/
noncomputable def betaRad (lp : LatticeParams) : ℝ := radians (lp.beta : ℝ)

/-- Angle `gamma` of a cell in radians. -/
noncomputable def gammaRad (lp : LatticeParams) : ℝ := radians (lp.gamma : ℝ)

/-- Argument of the `math.sqrt` in the unit-cell volume formula of
`convert_fractional_to_real`. -/
noncomputable def cellArg (lp : LatticeParams) : ℝ :=
  1 - Real.cos (alphaRad lp) ^ 2 - Real.cos (betaRad lp) ^ 2 - Real.cos (gammaRad lp) ^ 2 +
    2 * Real.cos (alphaRad lp) * Real.cos (betaRad lp) * Real.cos (gammaRad lp)

/-- The unit-cell volume `V` of `convert_fractional_to_real`. -/
noncomputable def cellVolume (lp : LatticeParams) : ℝ :=
  (lp.a : ℝ) * lp.b * lp.c * Real.sqrt (cellArg lp)

/-- The coordinate triple assigned to `x_real`, `y_real`, `z_real` at the end
of `convert_fractional_to_real`. -/
noncomputable def convertCoords (frac : ℚ × ℚ × ℚ) (lp : LatticeParams) : ℝ × ℝ × ℝ :=
  ((lp.a : ℝ) * frac.1 + (lp.b : ℝ) * Real.cos (gammaRad lp) * frac.2.1 +
      (lp.c : ℝ) * Real.cos (betaRad lp) * frac.2.2,
   (lp.b : ℝ) * Real.sin (gammaRad lp) * frac.2.1 +
      (lp.c : ℝ) * (Real.cos (alphaRad lp) - Real.cos (betaRad lp) * Real.cos (gammaRad lp)) /
        Real.sin (gammaRad lp) * frac.2.2,
   (lp.c : ℝ) * Real.sin (betaRad lp) * frac.2.2)

/-- Conditions under which `convert_fractional_to_real` raises no exception:
the `math.sqrt` argument is nonnegative, the volume `V` dividing the
reciprocal axes is nonzero, and the reciprocal-angle denominators
`sin β·sin γ`, `sin α·sin γ`, `sin α·sin β` are nonzero (nonzeroness of the
`sin γ` dividing `y_real` follows from the first product). -/
def latticeOK (lp : LatticeParams) : Prop :=
  0 ≤ cellArg lp ∧ cellVolume lp ≠ 0 ∧
    Real.sin (betaRad lp) * Real.sin (gammaRad lp) ≠ 0 ∧
    Real.sin (alphaRad lp) * Real.sin (gammaRad lp) ≠ 0 ∧
    Real.sin (alphaRad lp) * Real.sin (betaRad lp) ≠ 0

/-- `convert_fractional_to_real` of crystal_structure.py.  The checks mirror,
in source order, the places where the Python function can raise: `math.sqrt`
of a negative volume argument (`ValueError`), then the divisions by `V` in
`a_star`/`b_star`/`c_star` and by the sine products in the reciprocal-angle
cosines and in `y_real` (`ZeroDivisionError`). -/
noncomputable def convert_fractional_to_real (frac : ℚ × ℚ × ℚ) (lp : LatticeParams) :
    Except PyError (ℝ × ℝ × ℝ) :=
  if cellArg lp < 0 then .error .valueError
  else if cellVolume lp = 0 then .error .zeroDivisionError
  else if Real.sin (betaRad lp) * Real.sin (gammaRad lp) = 0 then .error .zeroDivisionError
  else if Real.sin (alphaRad lp) * Real.sin (gammaRad lp) = 0 then .error .zeroDivisionError
  else if Real.sin (alphaRad lp) * Real.sin (betaRad lp) = 0 then .error .zeroDivisionError
  else .ok (convertCoords frac lp)

/-- Distance between two real-space coordinate triples,
`math.sqrt(dx*dx + dy*dy + dz*dz)`. -/
noncomputable def realDist (r1 r2 : ℝ × ℝ × ℝ) : ℝ :=
  Real.sqrt ((r1.1 - r2.1) * (r1.1 - r2.1) + (r1.2.1 - r2.2.1) * (r1.2.1 - r2.2.1) +
    (r1.2.2 - r2.2.2) * (r1.2.2 - r2.2.2))

/-- Inner loop of the distance computation in
`calculate_optimal_scale_factor` (crystal_structure.py): the distances from
`atom1` to each later atom, converting both to real space (which may
raise). -/
noncomputable def rowDists (a : Atom) : List Atom → LatticeParams → Except PyError (List ℝ)
  | [], _ => .ok []
  | b :: bs, lp => do
    let r1 ← convert_fractional_to_real (a.x, a.y, a.z) lp
    let r2 ← convert_fractional_to_real (b.x, b.y, b.z) lp
    let ds ← rowDists a bs lp
    .ok (realDist r1 r2 :: ds)

/-- The full `distances` list of `calculate_optimal_scale_factor`
(crystal_structure.py), over all pairs in loop order. -/
noncomputable def pairRealDists : List Atom → LatticeParams → Except PyError (List ℝ)
  | [], _ => .ok []
  | a :: rest, lp => do
    let row ← rowDists a rest lp
    let others ← pairRealDists rest lp
    .ok (row ++ others)

/-- The real-space position of an atom under a lattice, when the transform
raises no exception. -/
noncomputable def atomRealCoords (a : Atom) (lp : LatticeParams) : ℝ × ℝ × ℝ :=
  convertCoords (a.x, a.y, a.z) lp

/-- The value of the `distances` list on the exception-free path. -/
noncomputable def pairDistsOK : List Atom → LatticeParams → List ℝ
  | [], _ => []
  | a :: rest, lp =>
    rest.map (fun b => realDist (atomRealCoords a lp) (atomRealCoords b lp)) ++
      pairDistsOK rest lp

/-- The `min_distance` of `calculate_optimal_scale_factor`
(crystal_structure.py) on the exception-free path with at least one pair. -/
noncomputable def min_distance (atoms : List Atom) (lp : LatticeParams) : ℝ :=
  listMin (pairDistsOK atoms lp)

/-- The `max_radius_sum = 2 * max(radii)` of `calculate_optimal_scale_factor`
(crystal_structure.py). -/
noncomputable def max_radius_sum (atoms : List Atom) : ℝ :=
  2 * listMax (atoms.map (fun a => ((get_atomic_radius a.name : ℚ) : ℝ)))

/-- `calculate_optimal_scale_factor` of crystal_structure.py.  Distances are
taken in real space (so the lattice transform may raise); the unused
`min_radius = min(radii)` of the source is omitted; the analysis dict is the
ordered key/value list. -/
noncomputable def calculate_optimal_scale_factor (atoms : List Atom) (lp : LatticeParams)
    (target_overlap : ℝ) : Except PyError (ℝ × List (String × ℝ)) :=
  if atoms.length < 2 then .ok (1, [])
  else do
    let distances ← pairRealDists atoms lp
    if distances = [] then .ok (1, [])
    else
      let radii := atoms.map (fun a => ((get_atomic_radius a.name : ℚ) : ℝ))
      let max_radius := listMax radii
      let md := listMin distances
      let mrs := 2 * max_radius
      let optimal_scale :=
        if 0 < md then
          if target_overlap ≤ 0 then md / mrs
          else if 1 ≤ target_overlap then (2 * md) / mrs
          else (md * (1 + target_overlap)) / mrs
        else 0.05
      let optimal_scale := max 0.01 (min 5 optimal_scale)
      let scaled_radius_sum := mrs * optimal_scale
      let overlap_with_optimal :=
        if 0 < scaled_radius_sum then max 0 ((scaled_radius_sum - md) / scaled_radius_sum)
        else 0
      .ok (optimal_scale,
        [("min_distance", md),
         ("max_radius_sum", mrs),
         ("current_overlap_ratio", max 0 ((mrs - md) / mrs)),
         ("optimal_scale", optimal_scale),
         ("overlap_with_optimal", overlap_with_optimal),
         ("scaled_radius_sum", scaled_radius_sum),
         ("target_overlap", target_overlap)])

end crystal_structure

/-- The `i`-th of `n` evenly spaced samples from `a` to `b`
(`np.linspace(a, b, n)[i]`; for `n ≥ 2` the step is `(b-a)/(n-1)` with the
endpoint included, and `np.linspace(a, b, 1) = [a]`). -/
noncomputable def linVal (a b : ℝ) (n i : ℕ) : ℝ := a + (b - a) * i / ((n : ℝ) - 1)

/-- `np.linspace(a, b, n)` as a list. -/
noncomputable def linspace (a b : ℝ) (n : ℕ) : List ℝ :=
  (List.range n).map (linVal a b n)

namespace crystal3D

/-- The vertex at polar index `i` and azimuth index `j` of the sphere mesh:
row `i` of the flattened meshgrid holds `theta[i]` with all `phi[j]`. -/
noncomputable def sphereVertex (center : ℝ × ℝ × ℝ) (radius : ℝ) (θ φ : ℝ) : ℝ × ℝ × ℝ :=
  (center.1 + radius * Real.sin θ * Real.cos φ,
   center.2.1 + radius * Real.sin θ * Real.sin φ,
   center.2.2 + radius * Real.cos θ)

/-- `create_sphere` of crystal3D.py (line-for-line identical in
crystal_structure.py): vertices are the row-major flattening of the
`resolution × resolution` meshgrid of polar angle × azimuth samples, and
faces are two index triangles per grid cell. -/
noncomputable def create_sphere (center : ℝ × ℝ × ℝ) (radius : ℝ) (resolution : ℕ) :
    List (ℝ × ℝ × ℝ) × List (List ℕ) :=
  let phi := linspace 0 (2 * Real.pi) resolution
  let theta := linspace 0 Real.pi resolution
  let vertices := theta.flatMap (fun θ => phi.map (fun φ => sphereVertex center radius θ φ))
  let faces := (List.range (resolution - 1)).flatMap (fun i =>
    (List.range (resolution - 1)).flatMap (fun j =>
      [[i * resolution + j, i * resolution + (j + 1), (i + 1) * resolution + j],
       [i * resolution + (j + 1), (i + 1) * resolution + (j + 1), (i + 1) * resolution + j]]))
  (vertices, faces)

end crystal3D

namespace crystal_structure

/-- `create_sphere` of crystal_structure.py, line-for-line identical to the
crystal3D.py version. -/
noncomputable def create_sphere (center : ℝ × ℝ × ℝ) (radius : ℝ) (resolution : ℕ) :
    List (ℝ × ℝ × ℝ) × List (List ℕ) :=
  crystal3D.create_sphere center radius resolution

end crystal_structure

/-- The visualization mode of crystal3D.py (`-m atoms` or `-m reflections`). -/
inductive Mode where
  | atoms
  | reflections
  deriving DecidableEq, Repr

/-- Observable outcome of one script run: reached plotting, bailed out with a
"no data" message, printed `Error: <message>` from a top-level `except`, or
crashed with an uncaught exception. -/
inductive Outcome where
  | plotted
  | noData
  | printedError (e : PyError)
  | uncaught (e : PyError)
  deriving DecidableEq, Repr

namespace crystal3D

/-- The work inside the `try:` of crystal3D.py's `main`: obtain the file's
lines (an OS failure such as a missing file is an exceptional input), parse
them, return the no-data message on an empty result, otherwise plot
(plotting itself is not modelled further). -/
noncomputable def script_body (file : Except PyError (List String)) (mode : Mode) :
    Except PyError Outcome := do
  let lines ← file
  match mode with
  | .atoms =>
    let atoms ← read_crystal_structure lines
    if atoms.isEmpty then pure .noData else pure .plotted
  | .reflections =>
    let hkl ← read_hkl_reflections lines
    if hkl.isEmpty then pure .noData else pure .plotted

/-- `main` of crystal3D.py: the whole body runs inside
`try: ... except Exception as e: print(f"Error: ...")`, so any exception
becomes a printed error message. -/
noncomputable def main (file : Except PyError (List String)) (mode : Mode) : Outcome :=
  match script_body file mode with
  | .ok o => o
  | .error e => .printedError e

end crystal3D

namespace plot_crystal

/-- The work inside the `try:` of plot_crystal.py's `main`. -/
noncomputable def script_body (file : Except PyError (List String)) : Except PyError Outcome := do
  let lines ← file
  let hkl ← read_hkl_file lines
  if hkl.isEmpty then pure .noData else pure .plotted

/-- `main` of plot_crystal.py: like crystal3D.py, the body runs inside a
`try/except` that prints `Error: <message>` (and exits with status 1). -/
noncomputable def main (file : Except PyError (List String)) : Outcome :=
  match script_body file with
  | .ok o => o
  | .error e => .printedError e

end plot_crystal

namespace crystal_structure

/-- The body of crystal_structure.py's `main`: read and parse the file, bail
out with an error message when no atoms were found, otherwise print the
atomic info and plot (printing and plotting are not modelled further). -/
noncomputable def script_body (file : Except PyError (List String)) : Except PyError Outcome := do
  let lines ← file
  let (atoms, _) ← read_crystal_structure lines
  if atoms.isEmpty then pure .noData else pure .plotted

/-- `main` of crystal_structure.py.  Unlike the other two scripts it has no
`try/except` around its body, so an exception escapes uncaught. -/
noncomputable def main (file : Except PyError (List String)) : Outcome :=
  match script_body file with
  | .ok o => o
  | .error e => .uncaught e

end crystal_structure


/-- Example atom: iron at the origin (fractional coordinates). -/
def demoFe : Atom := ⟨"Fe", 0, 0, 0, 0, 1, 0, 0⟩

/-- Example atom: an oxygen site label with a numeric suffix at `(1/2, 0, 0)`. -/
def demoO : Atom := ⟨"O1", 1/2, 0, 0, 0, 1, 0, 0⟩

/-- Example atom: hydrogen at the origin. -/
def demoH1 : Atom := ⟨"H", 0, 0, 0, 0, 1, 0, 0⟩

/-- Example atom: hydrogen at `(10, 0, 0)`, far from `demoH1`. -/
def demoH2 : Atom := ⟨"H", 10, 0, 0, 0, 1, 0, 0⟩

/-- Example orthogonal lattice with 4 Å edges. -/
def demoLattice : LatticeParams := ⟨4, 4, 4, 90, 90, 90⟩

/-- Example reflection-file lines: two junk lines, the header, three valid
reflection lines and one malformed 4-field line. -/
def demoHKLLines : List String :=
  ["some preamble", "# comment before header",
   "# H   K   L     Mult    dspc                   |Fc|^2",
   "  1   0   0   2   3.5   10.5",
   "  0   1   0   2   3.5   7.25",
   "1 1 1 4",
   "  2   0   0   4   1.75   0.5"]

/-- A `# CELL` line with exactly 7 whitespace-separated fields: it passes the
`len(parts) >= 7` guard but `parts[7]` does not exist. -/
def cellLine7 : String := "# CELL 5.0 5.0 5.0 90.0 90.0"

/-- A full `# CELL` line with 8 fields. -/
def cellLine8 : String := "# CELL 2.0 3.0 4.0 90.0 90.0 90.0"

/-- A short `# CELL` line with only 6 fields, skipped by the guard. -/
def cellLine6 : String := "# CELL 5.0 5.0 5.0 90.0"

/-! ## Helper lemmas -/

theorem lookup_mem {β : Type} {l : List (String × β)} {k : String} {v : β}
    (h : List.lookup k l = some v) : (k, v) ∈ l := by
  induction l with
  | nil => simp [List.lookup] at h
  | cons p rest ih =>
    rcases p with ⟨k1, v1⟩
    rw [List.lookup] at h
    split at h
    · rename_i hbeq
      injection h with h
      subst h
      have : k = k1 := by simpa using hbeq
      subst this
      exact List.mem_cons_self _ _
    · exact List.mem_cons_of_mem _ (ih h)

theorem atomic_radii_pos : ∀ p ∈ ATOMIC_RADII, (0 : ℚ) < p.2 := by
  with_unfolding_all decide

theorem get_atomic_radius_pos (s : String) : (0 : ℚ) < get_atomic_radius s := by
  unfold get_atomic_radius
  split
  · rename_i r hr
    exact atomic_radii_pos _ (lookup_mem hr)
  · norm_num

theorem stripAlpha_idem (s : String) : stripAlpha (stripAlpha s) = stripAlpha s := by
  unfold stripAlpha
  simp [List.filter_filter]

/-- C10: `get_atomic_radius` and `get_element_color` first strip all
non-alphabetic characters from the symbol, then return the table value when
the stripped symbol is a table key and the fixed defaults `1.0` (radius) and
`"#808080"` (color) otherwise; being total Lean functions they raise
nothing. -/
theorem element_lookup_total_defaults :
    ∀ s : String,
      get_atomic_radius s = get_atomic_radius (stripAlpha s) ∧
      get_element_color s = get_element_color (stripAlpha s) ∧
      ((List.lookup (stripAlpha s) ATOMIC_RADII = none ∧ get_atomic_radius s = 1) ∨
        (stripAlpha s, get_atomic_radius s) ∈ ATOMIC_RADII) ∧
      ((List.lookup (stripAlpha s) ELEMENT_COLORS = none ∧ get_element_color s = "#808080") ∨
        (stripAlpha s, get_element_color s) ∈ ELEMENT_COLORS) := by
  intro s
  refine ⟨?_, ?_, ?_, ?_⟩
  · unfold get_atomic_radius
    rw [stripAlpha_idem]
  · unfold get_element_color
    rw [stripAlpha_idem]
  · unfold get_atomic_radius
    split
    · rename_i r hr
      exact Or.inr (lookup_mem hr)
    · rename_i hr
      exact Or.inl ⟨hr, rfl⟩
  · unfold get_element_color
    split
    · rename_i c hc
      exact Or.inr (lookup_mem hc)
    · rename_i hc
      exact Or.inl ⟨hc, rfl⟩

/-- C5: with fewer than two atoms, both variants of
`calculate_optimal_scale_factor` return scale `1.0` and an empty analysis,
raising nothing. -/
theorem scale_factor_small_input :
    ∀ (atoms : List Atom) (lp : LatticeParams) (t : ℝ), atoms.length < 2 →
      crystal3D.calculate_optimal_scale_factor atoms t = (1, []) ∧
      crystal_structure.calculate_optimal_scale_factor atoms lp t = .ok (1, []) := by
  intro atoms lp t h
  constructor
  · unfold crystal3D.calculate_optimal_scale_factor
    rw [if_pos h]
  · unfold crystal_structure.calculate_optimal_scale_factor
    rw [if_pos h]

/-- C5 witness: the empty atom list and a singleton, at concrete scale
targets and lattice. -/
theorem scale_factor_small_input_witness :
    (crystal3D.calculate_optimal_scale_factor [] (1/2) = (1, []) ∧
      crystal_structure.calculate_optimal_scale_factor [] demoLattice (1/2) = .ok (1, [])) ∧
    (crystal3D.calculate_optimal_scale_factor [demoFe] 0 = (1, []) ∧
      crystal_structure.calculate_optimal_scale_factor [demoFe] demoLattice 0 = .ok (1, [])) :=
  ⟨scale_factor_small_input [] demoLattice (1/2) (by norm_num),
   scale_factor_small_input [demoFe] demoLattice 0 (by norm_num [demoFe])⟩


theorem le_foldl_max (l : List ℝ) (i : ℝ) : i ≤ l.foldl max i := by
  induction l generalizing i with
  | nil => exact le_refl i
  | cons x xs ih => exact le_trans (le_max_left i x) (ih (max i x))

theorem le_foldl_max_of {α : Type} (g : α → ℝ) (l : List α) (i : ℝ) :
    i ≤ l.foldl (fun m x => max m (g x)) i := by
  induction l generalizing i with
  | nil => exact le_refl i
  | cons x xs ih => exact le_trans (le_max_left i (g x)) (ih (max i (g x)))

theorem foldl_min_mem (l : List ℝ) (d : ℝ) : l.foldl min d = d ∨ l.foldl min d ∈ l := by
  induction l generalizing d with
  | nil => exact Or.inl rfl
  | cons x xs ih =>
    rw [List.foldl_cons]
    rcases ih (min d x) with h | h
    · rcases le_total d x with hdx | hxd
      · exact Or.inl (by rw [h, min_eq_left hdx])
      · exact Or.inr (by rw [h, min_eq_right hxd]; exact List.mem_cons_self x xs)
    · exact Or.inr (List.mem_cons_of_mem x h)

theorem listMin_mem (l : List ℝ) (h : l ≠ []) : listMin l ∈ l := by
  match l with
  | d :: ds =>
    show List.foldl min d ds ∈ d :: ds
    rcases foldl_min_mem ds d with h1 | h1
    · rw [h1]; exact List.mem_cons_self d ds
    · exact List.mem_cons_of_mem d h1

theorem listMin_eq_zero {l : List ℝ} (h : l ≠ []) (h0 : ∀ x ∈ l, x = 0) : listMin l = 0 :=
  h0 _ (listMin_mem l h)

theorem max_radius_sum_pos_3D (atoms : List Atom) (h : atoms ≠ []) :
    0 < crystal3D.max_radius_sum atoms := by
  match atoms with
  | a :: rest =>
    have hr : (0 : ℝ) < ((get_atomic_radius a.name : ℚ) : ℝ) := by
      exact_mod_cast get_atomic_radius_pos a.name
    have h1 : ((get_atomic_radius a.name : ℚ) : ℝ) ≤
        (a :: rest).foldl (fun m x => max m ((get_atomic_radius x.name : ℚ) : ℝ)) 0 := by
      rw [List.foldl_cons]
      exact le_trans (le_max_right 0 _) (le_foldl_max_of _ rest _)
    unfold crystal3D.max_radius_sum
    nlinarith [h1, hr]

theorem max_radius_sum_pos_CS (atoms : List Atom) (h : atoms ≠ []) :
    0 < crystal_structure.max_radius_sum atoms := by
  match atoms with
  | a :: rest =>
    have hr : (0 : ℝ) < ((get_atomic_radius a.name : ℚ) : ℝ) := by
      exact_mod_cast get_atomic_radius_pos a.name
    have h1 : ((get_atomic_radius a.name : ℚ) : ℝ) ≤
        listMax ((a :: rest).map (fun x => ((get_atomic_radius x.name : ℚ) : ℝ))) := by
      rw [List.map_cons]
      show _ ≤ (rest.map _).foldl max _
      exact le_foldl_max _ _
    unfold crystal_structure.max_radius_sum
    nlinarith [h1, hr]

theorem pairDists_ne_nil {atoms : List Atom} (h : 2 ≤ atoms.length) :
    crystal3D.pairDists atoms ≠ [] := by
  rcases atoms with _ | ⟨a, _ | ⟨b, rest⟩⟩
  · norm_num at h
  · norm_num at h
  · simp [crystal3D.pairDists]

theorem mem_pairDists {x : ℝ} {atoms : List Atom} (hx : x ∈ crystal3D.pairDists atoms) :
    ∃ a1 ∈ atoms, ∃ a2 ∈ atoms, x = crystal3D.atomDist a1 a2 := by
  induction atoms with
  | nil => simp [crystal3D.pairDists] at hx
  | cons a rest ih =>
    rw [show crystal3D.pairDists (a :: rest) =
        rest.map (crystal3D.atomDist a) ++ crystal3D.pairDists rest from rfl,
      List.mem_append] at hx
    rcases hx with hx | hx
    · rcases List.mem_map.mp hx with ⟨b, hb, rfl⟩
      exact ⟨a, List.mem_cons_self a rest, b, List.mem_cons_of_mem a hb, rfl⟩
    · rcases ih hx with ⟨a1, h1, a2, h2, rfl⟩
      exact ⟨a1, List.mem_cons_of_mem a h1, a2, List.mem_cons_of_mem a h2, rfl⟩

theorem pairDistsOK_ne_nil {atoms : List Atom} (lp : LatticeParams) (h : 2 ≤ atoms.length) :
    crystal_structure.pairDistsOK atoms lp ≠ [] := by
  rcases atoms with _ | ⟨a, _ | ⟨b, rest⟩⟩
  · norm_num at h
  · norm_num at h
  · simp [crystal_structure.pairDistsOK]

theorem mem_pairDistsOK {x : ℝ} {atoms : List Atom} {lp : LatticeParams}
    (hx : x ∈ crystal_structure.pairDistsOK atoms lp) :
    ∃ a1 ∈ atoms, ∃ a2 ∈ atoms,
      x = crystal_structure.realDist (crystal_structure.atomRealCoords a1 lp)
        (crystal_structure.atomRealCoords a2 lp) := by
  induction atoms with
  | nil => simp [crystal_structure.pairDistsOK] at hx
  | cons a rest ih =>
    rw [show crystal_structure.pairDistsOK (a :: rest) lp =
        rest.map (fun b => crystal_structure.realDist (crystal_structure.atomRealCoords a lp)
          (crystal_structure.atomRealCoords b lp)) ++ crystal_structure.pairDistsOK rest lp from rfl,
      List.mem_append] at hx
    rcases hx with hx | hx
    · rcases List.mem_map.mp hx with ⟨b, hb, rfl⟩
      exact ⟨a, List.mem_cons_self a rest, b, List.mem_cons_of_mem a hb, rfl⟩
    · rcases ih hx with ⟨a1, h1, a2, h2, rfl⟩
      exact ⟨a1, List.mem_cons_of_mem a h1, a2, List.mem_cons_of_mem a h2, rfl⟩

theorem atomDist_coincident {a1 a2 : Atom} (hx : a1.x = a2.x) (hy : a1.y = a2.y)
    (hz : a1.z = a2.z) : crystal3D.atomDist a1 a2 = 0 := by
  unfold crystal3D.atomDist
  rw [hx, hy, hz]
  simp

theorem realDist_self (r : ℝ × ℝ × ℝ) : crystal_structure.realDist r r = 0 := by
  unfold crystal_structure.realDist
  simp

theorem radians_cast_90 : radians ((90 : ℚ) : ℝ) = Real.pi / 2 := by
  unfold radians
  push_cast
  ring

theorem alphaRad_90 (a b c : ℚ) :
    crystal_structure.alphaRad ⟨a, b, c, 90, 90, 90⟩ = Real.pi / 2 := radians_cast_90

theorem betaRad_90 (a b c : ℚ) :
    crystal_structure.betaRad ⟨a, b, c, 90, 90, 90⟩ = Real.pi / 2 := radians_cast_90

theorem gammaRad_90 (a b c : ℚ) :
    crystal_structure.gammaRad ⟨a, b, c, 90, 90, 90⟩ = Real.pi / 2 := radians_cast_90

theorem cellArg_90 (a b c : ℚ) : crystal_structure.cellArg ⟨a, b, c, 90, 90, 90⟩ = 1 := by
  unfold crystal_structure.cellArg
  rw [alphaRad_90, betaRad_90, gammaRad_90, Real.cos_pi_div_two]
  ring

theorem cellVolume_90 (a b c : ℚ) :
    crystal_structure.cellVolume ⟨a, b, c, 90, 90, 90⟩ = (a : ℝ) * b * c := by
  unfold crystal_structure.cellVolume
  rw [cellArg_90, Real.sqrt_one, mul_one]

theorem latticeOK_90 (a b c : ℚ) (h : (a : ℝ) * b * c ≠ 0) :
    crystal_structure.latticeOK ⟨a, b, c, 90, 90, 90⟩ := by
  unfold crystal_structure.latticeOK
  rw [cellArg_90, cellVolume_90, alphaRad_90, betaRad_90, gammaRad_90, Real.sin_pi_div_two]
  norm_num [h]

theorem convertCoords_90 (a b c x y z : ℚ) :
    crystal_structure.convertCoords (x, y, z) ⟨a, b, c, 90, 90, 90⟩ =
      ((a : ℝ) * (x : ℝ), (b : ℝ) * (y : ℝ), (c : ℝ) * (z : ℝ)) := by
  unfold crystal_structure.convertCoords
  rw [alphaRad_90, betaRad_90, gammaRad_90, Real.cos_pi_div_two, Real.sin_pi_div_two]
  simp only [Prod.mk.injEq]
  refine ⟨by ring, by ring, by ring⟩

theorem convert_ok {lp : LatticeParams} (h : crystal_structure.latticeOK lp) (frac : ℚ × ℚ × ℚ) :
    crystal_structure.convert_fractional_to_real frac lp =
      .ok (crystal_structure.convertCoords frac lp) := by
  obtain ⟨h1, h2, h3, h4, h5⟩ := h
  unfold crystal_structure.convert_fractional_to_real
  rw [if_neg (not_lt.mpr h1), if_neg h2, if_neg h3, if_neg h4, if_neg h5]

theorem rowDists_ok {lp : LatticeParams} (h : crystal_structure.latticeOK lp) (a : Atom)
    (l : List Atom) : crystal_structure.rowDists a l lp =
      .ok (l.map (fun b => crystal_structure.realDist (crystal_structure.atomRealCoords a lp)
        (crystal_structure.atomRealCoords b lp))) := by
  induction l with
  | nil => rfl
  | cons b bs ih =>
    unfold crystal_structure.rowDists
    rw [convert_ok h, convert_ok h, ih]
    rfl

theorem pairRealDists_ok {lp : LatticeParams} (h : crystal_structure.latticeOK lp)
    (atoms : List Atom) : crystal_structure.pairRealDists atoms lp =
      .ok (crystal_structure.pairDistsOK atoms lp) := by
  induction atoms with
  | nil => rfl
  | cons a rest ih =>
    unfold crystal_structure.pairRealDists
    rw [rowDists_ok h, ih]
    rfl


theorem except_bind_ok {α β : Type} (a : α) (f : α → Except PyError β) :
    (Except.ok a >>= f) = f a := rfl

theorem except_map_fst_ok {α β : Type} {e : Except PyError (α × β)} {v : α}
    (h : e.map Prod.fst = .ok v) : ∃ res, e = .ok res ∧ res.1 = v := by
  cases e with
  | error err => simp [Except.map] at h
  | ok res =>
    refine ⟨res, rfl, ?_⟩
    simpa [Except.map] using h

theorem calc3D_fst (atoms : List Atom) (t : ℝ) (h2 : 2 ≤ atoms.length) :
    (crystal3D.calculate_optimal_scale_factor atoms t).1 =
      max 0.01 (min 1
        (if t ≤ 0 then crystal3D.min_distance atoms / crystal3D.max_radius_sum atoms
         else if 1 ≤ t then 2 * crystal3D.min_distance atoms / crystal3D.max_radius_sum atoms
         else crystal3D.min_distance atoms * (1 + t) / crystal3D.max_radius_sum atoms)) := by
  have hne : atoms ≠ [] := by
    intro hnil
    rw [hnil] at h2
    norm_num at h2
  unfold crystal3D.calculate_optimal_scale_factor
  rw [if_neg (by omega : ¬ atoms.length < 2)]
  dsimp only
  rw [if_pos (max_radius_sum_pos_3D atoms hne)]

theorem calcCS_fst (atoms : List Atom) (lp : LatticeParams) (t : ℝ)
    (h2 : 2 ≤ atoms.length) (hOK : crystal_structure.latticeOK lp) :
    (crystal_structure.calculate_optimal_scale_factor atoms lp t).map Prod.fst =
      .ok (max 0.01 (min 5
        (if 0 < crystal_structure.min_distance atoms lp then
          (if t ≤ 0 then
            crystal_structure.min_distance atoms lp / crystal_structure.max_radius_sum atoms
           else if 1 ≤ t then
            2 * crystal_structure.min_distance atoms lp / crystal_structure.max_radius_sum atoms
           else
            crystal_structure.min_distance atoms lp * (1 + t) /
              crystal_structure.max_radius_sum atoms)
         else 0.05))) := by
  unfold crystal_structure.calculate_optimal_scale_factor
  rw [if_neg (by omega : ¬ atoms.length < 2), pairRealDists_ok hOK, except_bind_ok]
  dsimp only
  rw [if_neg (pairDistsOK_ne_nil lp h2)]
  rfl


theorem sqrt_eval {x y : ℝ} (hy : 0 ≤ y) (h : x = y * y) : Real.sqrt x = y := by
  rw [h]
  exact Real.sqrt_mul_self hy

theorem minDist3D_coincident {atoms : List Atom} (h2 : 2 ≤ atoms.length)
    (hco : ∀ a1 ∈ atoms, ∀ a2 ∈ atoms, a1.x = a2.x ∧ a1.y = a2.y ∧ a1.z = a2.z) :
    crystal3D.min_distance atoms = 0 := by
  apply listMin_eq_zero (pairDists_ne_nil h2)
  intro x hx
  rcases mem_pairDists hx with ⟨a1, h1, a2, hA2, rfl⟩
  obtain ⟨hx', hy', hz'⟩ := hco a1 h1 a2 hA2
  exact atomDist_coincident hx' hy' hz'

theorem minDistCS_coincident {atoms : List Atom} {lp : LatticeParams} (h2 : 2 ≤ atoms.length)
    (hco : ∀ a1 ∈ atoms, ∀ a2 ∈ atoms, a1.x = a2.x ∧ a1.y = a2.y ∧ a1.z = a2.z) :
    crystal_structure.min_distance atoms lp = 0 := by
  apply listMin_eq_zero (pairDistsOK_ne_nil lp h2)
  intro x hx
  rcases mem_pairDistsOK hx with ⟨a1, h1, a2, hA2, rfl⟩
  obtain ⟨hx', hy', hz'⟩ := hco a1 h1 a2 hA2
  have hco' : crystal_structure.atomRealCoords a1 lp = crystal_structure.atomRealCoords a2 lp := by
    unfold crystal_structure.atomRealCoords
    rw [hx', hy', hz']
  rw [hco', realDist_self]

theorem minDist3D_pair (a b : Atom) :
    crystal3D.min_distance [a, b] = crystal3D.atomDist a b := rfl

theorem minDistCS_pair (a b : Atom) (lp : LatticeParams) :
    crystal_structure.min_distance [a, b] lp =
      crystal_structure.realDist (crystal_structure.atomRealCoords a lp)
        (crystal_structure.atomRealCoords b lp) := rfl

theorem radius_Fe : get_atomic_radius "Fe" = 1.26 := by with_unfolding_all rfl

theorem radius_O1 : get_atomic_radius "O1" = 0.6 := by with_unfolding_all rfl

theorem radius_H : get_atomic_radius "H" = 0.31 := by with_unfolding_all rfl

theorem demo_mrs3D : crystal3D.max_radius_sum [demoFe, demoO] = 2.52 := by
  unfold crystal3D.max_radius_sum
  simp only [List.foldl_cons, List.foldl_nil, demoFe, demoO]
  rw [radius_Fe, radius_O1]
  rw [show ((1.26 : ℚ) : ℝ) = 1.26 by norm_num, show ((0.6 : ℚ) : ℝ) = 0.6 by norm_num]
  rw [max_eq_right (by norm_num : (0:ℝ) ≤ 1.26), max_eq_left (by norm_num : (0.6:ℝ) ≤ 1.26)]
  norm_num

theorem demo_mrsCS : crystal_structure.max_radius_sum [demoFe, demoO] = 2.52 := by
  unfold crystal_structure.max_radius_sum
  simp only [List.map_cons, List.map_nil, demoFe, demoO]
  rw [radius_Fe, radius_O1]
  show (2 : ℝ) * ([((0.6:ℚ):ℝ)].foldl max ((1.26:ℚ):ℝ)) = 2.52
  simp only [List.foldl_cons, List.foldl_nil]
  rw [show ((1.26 : ℚ) : ℝ) = 1.26 by norm_num, show ((0.6 : ℚ) : ℝ) = 0.6 by norm_num]
  rw [max_eq_left (by norm_num : (0.6:ℝ) ≤ 1.26)]
  norm_num

theorem demo_realFe : crystal_structure.atomRealCoords demoFe demoLattice = (0, 0, 0) := by
  unfold crystal_structure.atomRealCoords
  simp only [demoFe, demoLattice]
  rw [convertCoords_90]
  norm_num

theorem demo_realO : crystal_structure.atomRealCoords demoO demoLattice = (2, 0, 0) := by
  unfold crystal_structure.atomRealCoords
  simp only [demoO, demoLattice]
  rw [convertCoords_90]
  norm_num

theorem demo_distCS : crystal_structure.min_distance [demoFe, demoO] demoLattice = 2 := by
  rw [minDistCS_pair, demo_realFe, demo_realO]
  unfold crystal_structure.realDist
  apply sqrt_eval (by norm_num)
  norm_num

theorem demo_dist3D : crystal3D.atomDist demoFe demoO = 1 / 2 := by
  unfold crystal3D.atomDist
  simp only [demoFe, demoO]
  apply sqrt_eval (by norm_num)
  push_cast
  norm_num

theorem demoLatticeOK : crystal_structure.latticeOK demoLattice :=
  latticeOK_90 4 4 4 (by norm_num)

/-- C1 (amended): with at least two atoms, crystal3D.py returns the piecewise
min-distance formula clamped to `[0.01, 1.0]`; crystal_structure.py does the
same with clamp `[0.01, 5.0]` whenever its lattice transform is defined and
the minimum real-space distance is positive (at zero minimum distance it
instead returns the clamped fallback `0.05`). -/
theorem scale_factor_formula_piecewise :
    (∀ (atoms : List Atom) (t : ℝ), 2 ≤ atoms.length →
      (crystal3D.calculate_optimal_scale_factor atoms t).1 =
        max 0.01 (min 1
          (if t ≤ 0 then crystal3D.min_distance atoms / crystal3D.max_radius_sum atoms
           else if 1 ≤ t then 2 * crystal3D.min_distance atoms / crystal3D.max_radius_sum atoms
           else crystal3D.min_distance atoms * (1 + t) / crystal3D.max_radius_sum atoms))) ∧
    (∀ (atoms : List Atom) (lp : LatticeParams) (t : ℝ), 2 ≤ atoms.length →
      crystal_structure.latticeOK lp → 0 < crystal_structure.min_distance atoms lp →
      (crystal_structure.calculate_optimal_scale_factor atoms lp t).map Prod.fst =
        .ok (max 0.01 (min 5
          (if t ≤ 0 then
            crystal_structure.min_distance atoms lp / crystal_structure.max_radius_sum atoms
           else if 1 ≤ t then
            2 * crystal_structure.min_distance atoms lp / crystal_structure.max_radius_sum atoms
           else
            crystal_structure.min_distance atoms lp * (1 + t) /
              crystal_structure.max_radius_sum atoms)))) := by
  constructor
  · exact fun atoms t h2 => calc3D_fst atoms t h2
  · intro atoms lp t h2 hOK hpos
    rw [calcCS_fst atoms lp t h2 hOK, if_pos hpos]

/-- C1 counterexample: two coincident atoms under the crystal_structure.py
variant yield scale `0.05` (the clamped zero-distance fallback), while the
claimed formula-then-clamp value is `0.01`. -/
theorem scale_factor_zero_distance_fallback_cex :
    (crystal_structure.calculate_optimal_scale_factor [demoFe, demoFe] defaultLattice 0).map
        Prod.fst = .ok 0.05 ∧
    max 0.01 (min 5 (crystal_structure.min_distance [demoFe, demoFe] defaultLattice /
      crystal_structure.max_radius_sum [demoFe, demoFe])) = 0.01 ∧
    (0.05 : ℝ) ≠ 0.01 := by
  have hOK : crystal_structure.latticeOK defaultLattice := latticeOK_90 1 1 1 (by norm_num)
  have hco : ∀ a1 ∈ [demoFe, demoFe], ∀ a2 ∈ [demoFe, demoFe],
      a1.x = a2.x ∧ a1.y = a2.y ∧ a1.z = a2.z := by
    intro a1 h1 a2 hA2
    simp only [List.mem_cons, List.not_mem_nil, or_false] at h1 hA2
    rcases h1 with rfl | rfl <;> rcases hA2 with rfl | rfl <;> exact ⟨rfl, rfl, rfl⟩
  have h0 : crystal_structure.min_distance [demoFe, demoFe] defaultLattice = 0 :=
    minDistCS_coincident (by norm_num) hco
  refine ⟨?_, ?_, by norm_num⟩
  · rw [calcCS_fst _ _ _ (by norm_num) hOK, if_neg (by rw [h0]; exact lt_irrefl 0)]
    rw [min_eq_right (by norm_num : (0.05:ℝ) ≤ 5), max_eq_right (by norm_num : (0.01:ℝ) ≤ 0.05)]
  · rw [h0, zero_div, min_eq_right (by norm_num : (0:ℝ) ≤ 5),
      max_eq_left (by norm_num : (0:ℝ) ≤ 0.01)]

/-- C1 witness: both conjuncts instantiated at the two-atom Fe/O example, the
demo lattice and target overlap `1/10`. -/
theorem scale_factor_formula_piecewise_witness :
    (crystal3D.calculate_optimal_scale_factor [demoFe, demoO] (1/10)).1 =
      max 0.01 (min 1
        (if (1/10 : ℝ) ≤ 0 then
          crystal3D.min_distance [demoFe, demoO] / crystal3D.max_radius_sum [demoFe, demoO]
         else if 1 ≤ (1/10 : ℝ) then
          2 * crystal3D.min_distance [demoFe, demoO] / crystal3D.max_radius_sum [demoFe, demoO]
         else
          crystal3D.min_distance [demoFe, demoO] * (1 + (1/10 : ℝ)) /
            crystal3D.max_radius_sum [demoFe, demoO])) ∧
    (crystal_structure.calculate_optimal_scale_factor [demoFe, demoO] demoLattice (1/10)).map
        Prod.fst =
      .ok (max 0.01 (min 5
        (if (1/10 : ℝ) ≤ 0 then
          crystal_structure.min_distance [demoFe, demoO] demoLattice /
            crystal_structure.max_radius_sum [demoFe, demoO]
         else if 1 ≤ (1/10 : ℝ) then
          2 * crystal_structure.min_distance [demoFe, demoO] demoLattice /
            crystal_structure.max_radius_sum [demoFe, demoO]
         else
          crystal_structure.min_distance [demoFe, demoO] demoLattice * (1 + (1/10 : ℝ)) /
            crystal_structure.max_radius_sum [demoFe, demoO]))) :=
  ⟨scale_factor_formula_piecewise.1 [demoFe, demoO] (1/10) (by norm_num),
   scale_factor_formula_piecewise.2 [demoFe, demoO] demoLattice (1/10) (by norm_num)
     demoLatticeOK (by rw [demo_distCS]; norm_num)⟩


theorem atomDist_H : crystal3D.atomDist demoH1 demoH2 = 10 := by
  unfold crystal3D.atomDist
  simp only [demoH1, demoH2]
  apply sqrt_eval (by norm_num)
  push_cast
  norm_num

theorem mrs3D_H : crystal3D.max_radius_sum [demoH1, demoH2] = 0.62 := by
  unfold crystal3D.max_radius_sum
  simp only [List.foldl_cons, List.foldl_nil, demoH1, demoH2]
  rw [radius_H]
  rw [show ((0.31 : ℚ) : ℝ) = 0.31 by norm_num]
  rw [max_eq_right (by norm_num : (0:ℝ) ≤ 0.31), max_eq_left (le_refl (0.31:ℝ))]
  norm_num

/-- C2 (amended): at target overlap 0 the returned scale `s` satisfies
`s·R = D` exactly (in exact real arithmetic) whenever the ratio `D/R` lies
within the variant's clamp range (`[0.01, 1]` for crystal3D.py, `[0.01, 5]`
for crystal_structure.py); outside that range the clamp changes the scale
and the identity fails. -/
theorem no_overlap_scale_times_radius_eq_distance :
    (∀ a b : Atom,
      0.01 ≤ crystal3D.atomDist a b / crystal3D.max_radius_sum [a, b] →
      crystal3D.atomDist a b / crystal3D.max_radius_sum [a, b] ≤ 1 →
      (crystal3D.calculate_optimal_scale_factor [a, b] 0).1 * crystal3D.max_radius_sum [a, b] =
        crystal3D.atomDist a b) ∧
    (∀ (a b : Atom) (lp : LatticeParams), crystal_structure.latticeOK lp →
      0.01 ≤ crystal_structure.min_distance [a, b] lp / crystal_structure.max_radius_sum [a, b] →
      crystal_structure.min_distance [a, b] lp / crystal_structure.max_radius_sum [a, b] ≤ 5 →
      (crystal_structure.calculate_optimal_scale_factor [a, b] lp 0).map Prod.fst =
        .ok (crystal_structure.min_distance [a, b] lp / crystal_structure.max_radius_sum [a, b]) ∧
      (crystal_structure.min_distance [a, b] lp / crystal_structure.max_radius_sum [a, b]) *
        crystal_structure.max_radius_sum [a, b] = crystal_structure.min_distance [a, b] lp) := by
  constructor
  · intro a b hlo hhi
    have hR : 0 < crystal3D.max_radius_sum [a, b] := max_radius_sum_pos_3D _ (by simp)
    rw [calc3D_fst [a, b] 0 (by simp), if_pos (le_refl (0 : ℝ)), minDist3D_pair,
      min_eq_right hhi, max_eq_right hlo]
    exact div_mul_cancel₀ _ (ne_of_gt hR)
  · intro a b lp hOK hlo hhi
    have hR : 0 < crystal_structure.max_radius_sum [a, b] := max_radius_sum_pos_CS _ (by simp)
    have hD : 0 < crystal_structure.min_distance [a, b] lp := by
      have h1 : (0.01 : ℝ) * crystal_structure.max_radius_sum [a, b] ≤
          crystal_structure.min_distance [a, b] lp := (le_div_iff₀ hR).mp hlo
      nlinarith [hR, h1]
    rw [calcCS_fst [a, b] lp 0 (by simp) hOK, if_pos hD, if_pos (le_refl (0 : ℝ)),
      min_eq_right hhi, max_eq_right hlo]
    exact ⟨rfl, div_mul_cancel₀ _ (ne_of_gt hR)⟩

/-- C2 counterexample: two hydrogens 10 Å apart (unscaled max radius sum
`R = 0.62`): the clamp caps the scale at 1, so `s·R = 0.62` although the
distance is `D = 10`. -/
theorem no_overlap_scale_clamped_cex :
    (crystal3D.calculate_optimal_scale_factor [demoH1, demoH2] 0).1 *
      crystal3D.max_radius_sum [demoH1, demoH2] = 0.62 ∧
    crystal3D.atomDist demoH1 demoH2 = 10 ∧ (0.62 : ℝ) ≠ 10 := by
  refine ⟨?_, atomDist_H, by norm_num⟩
  rw [calc3D_fst _ _ (by simp), if_pos (le_refl (0 : ℝ)), minDist3D_pair, atomDist_H, mrs3D_H,
    min_eq_left (by norm_num : (1:ℝ) ≤ 10 / 0.62), max_eq_right (by norm_num : (0.01:ℝ) ≤ 1)]
  norm_num

/-- C2 witness: the Fe/O pair, whose distance-to-radius ratio lies inside
both clamp ranges. -/
theorem no_overlap_scale_times_radius_witness :
    ((crystal3D.calculate_optimal_scale_factor [demoFe, demoO] 0).1 *
      crystal3D.max_radius_sum [demoFe, demoO] = crystal3D.atomDist demoFe demoO) ∧
    ((crystal_structure.calculate_optimal_scale_factor [demoFe, demoO] demoLattice 0).map
        Prod.fst =
      .ok (crystal_structure.min_distance [demoFe, demoO] demoLattice /
        crystal_structure.max_radius_sum [demoFe, demoO]) ∧
      (crystal_structure.min_distance [demoFe, demoO] demoLattice /
        crystal_structure.max_radius_sum [demoFe, demoO]) *
        crystal_structure.max_radius_sum [demoFe, demoO] =
        crystal_structure.min_distance [demoFe, demoO] demoLattice) :=
  ⟨no_overlap_scale_times_radius_eq_distance.1 demoFe demoO
      (by rw [demo_dist3D, demo_mrs3D]; norm_num) (by rw [demo_dist3D, demo_mrs3D]; norm_num),
   no_overlap_scale_times_radius_eq_distance.2 demoFe demoO demoLattice demoLatticeOK
      (by rw [demo_distCS, demo_mrsCS]; norm_num) (by rw [demo_distCS, demo_mrsCS]; norm_num)⟩

/-- C9: with at least two pairwise coincident atoms, both scale-factor
variants return without error and the returned scale lies within the
variant's clamp range, hence is never zero (the actual values being `0.01`
for crystal3D.py and `0.05` for crystal_structure.py, whose lattice
transform must be defined for it to get that far). -/
theorem coincident_atoms_scale_in_range :
    ∀ (atoms : List Atom) (lp : LatticeParams) (t : ℝ), 2 ≤ atoms.length →
      (∀ a1 ∈ atoms, ∀ a2 ∈ atoms, a1.x = a2.x ∧ a1.y = a2.y ∧ a1.z = a2.z) →
      crystal_structure.latticeOK lp →
      (0.01 ≤ (crystal3D.calculate_optimal_scale_factor atoms t).1 ∧
        (crystal3D.calculate_optimal_scale_factor atoms t).1 ≤ 1 ∧
        (crystal3D.calculate_optimal_scale_factor atoms t).1 ≠ 0) ∧
      (∃ res, crystal_structure.calculate_optimal_scale_factor atoms lp t = .ok res ∧
        0.01 ≤ res.1 ∧ res.1 ≤ 5 ∧ res.1 ≠ 0) := by
  intro atoms lp t h2 hco hOK
  have h3 : (crystal3D.calculate_optimal_scale_factor atoms t).1 = 0.01 := by
    rw [calc3D_fst atoms t h2, minDist3D_coincident h2 hco]
    have hz : (if t ≤ 0 then (0 : ℝ) / crystal3D.max_radius_sum atoms
        else if 1 ≤ t then 2 * (0 : ℝ) / crystal3D.max_radius_sum atoms
        else (0 : ℝ) * (1 + t) / crystal3D.max_radius_sum atoms) = 0 := by
      split_ifs <;> simp
    rw [hz, min_eq_right (by norm_num : (0:ℝ) ≤ 1), max_eq_left (by norm_num : (0:ℝ) ≤ 0.01)]
  have hm := calcCS_fst atoms lp t h2 hOK
  rw [minDistCS_coincident h2 hco, if_neg (lt_irrefl (0 : ℝ)),
    min_eq_right (by norm_num : (0.05:ℝ) ≤ 5),
    max_eq_right (by norm_num : (0.01:ℝ) ≤ 0.05)] at hm
  rcases except_map_fst_ok hm with ⟨res, hres, hres1⟩
  refine ⟨⟨by rw [h3], by rw [h3]; norm_num, by rw [h3]; norm_num⟩,
    ⟨res, hres, by rw [hres1]; norm_num, by rw [hres1]; norm_num, by rw [hres1]; norm_num⟩⟩

/-- C9 witness: two coincident iron atoms under the demo lattice at target
overlap `1/2`. -/
theorem coincident_atoms_scale_in_range_witness :
    (0.01 ≤ (crystal3D.calculate_optimal_scale_factor [demoFe, demoFe] (1/2)).1 ∧
      (crystal3D.calculate_optimal_scale_factor [demoFe, demoFe] (1/2)).1 ≤ 1 ∧
      (crystal3D.calculate_optimal_scale_factor [demoFe, demoFe] (1/2)).1 ≠ 0) ∧
    (∃ res, crystal_structure.calculate_optimal_scale_factor [demoFe, demoFe] demoLattice (1/2) =
        .ok res ∧ 0.01 ≤ res.1 ∧ res.1 ≤ 5 ∧ res.1 ≠ 0) :=
  coincident_atoms_scale_in_range [demoFe, demoFe] demoLattice (1/2) (by simp)
    (by
      intro a1 h1 a2 hA2
      simp only [List.mem_cons, List.not_mem_nil, or_false] at h1 hA2
      rcases h1 with rfl | rfl <;> rcases hA2 with rfl | rfl <;> exact ⟨rfl, rfl, rfl⟩)
    demoLatticeOK


/-- C7 (amended): for every orthogonal cell (`alpha = beta = gamma = 90`)
with `a·b·c ≠ 0`, `convert_fractional_to_real` returns exactly the per-axis
scaling `(a·x, b·y, c·z)`; and the fractional origin maps to the real origin
for every lattice whose transform is defined (nonnegative volume argument,
nonzero volume and angle sines).  A degenerate lattice (zero edge length or
zero angle sine) instead raises. -/
theorem convert_orthogonal_and_origin :
    (∀ a b c x y z : ℚ, (a : ℝ) * b * c ≠ 0 →
      crystal_structure.convert_fractional_to_real (x, y, z) ⟨a, b, c, 90, 90, 90⟩ =
        .ok ((a : ℝ) * (x : ℝ), (b : ℝ) * (y : ℝ), (c : ℝ) * (z : ℝ))) ∧
    (∀ lp : LatticeParams, crystal_structure.latticeOK lp →
      crystal_structure.convert_fractional_to_real (0, 0, 0) lp = .ok (0, 0, 0)) := by
  constructor
  · intro a b c x y z h
    rw [convert_ok (latticeOK_90 a b c h), convertCoords_90]
  · intro lp hOK
    rw [convert_ok hOK]
    unfold crystal_structure.convertCoords
    norm_num

/-- C7 counterexample: an orthogonal cell with `a = 0` (hence zero volume)
raises `ZeroDivisionError` instead of mapping `(0,0,0)` to `(0,0,0)`. -/
theorem convert_degenerate_lattice_cex :
    crystal_structure.convert_fractional_to_real (0, 0, 0) ⟨0, 1, 1, 90, 90, 90⟩ =
      .error .zeroDivisionError ∧
    (Except.error PyError.zeroDivisionError : Except PyError (ℝ × ℝ × ℝ)) ≠
      .ok ((0 : ℝ), (0 : ℝ), (0 : ℝ)) := by
  constructor
  · unfold crystal_structure.convert_fractional_to_real
    rw [cellArg_90, cellVolume_90]
    rw [if_neg (by norm_num : ¬ (1 : ℝ) < 0), if_pos (by norm_num)]
  · intro h
    exact Except.noConfusion h

/-- C7 witness: a 2×3×4 orthogonal cell maps `(1/2, 1/2, 1/2)` to per-axis
scaling, and the origin maps to the origin under the demo lattice. -/
theorem convert_orthogonal_and_origin_witness :
    crystal_structure.convert_fractional_to_real (1/2, 1/2, 1/2) ⟨2, 3, 4, 90, 90, 90⟩ =
      .ok (((2 : ℚ) : ℝ) * ((1/2 : ℚ) : ℝ), ((3 : ℚ) : ℝ) * ((1/2 : ℚ) : ℝ),
        ((4 : ℚ) : ℝ) * ((1/2 : ℚ) : ℝ)) ∧
    crystal_structure.convert_fractional_to_real (0, 0, 0) demoLattice = .ok (0, 0, 0) :=
  ⟨convert_orthogonal_and_origin.1 2 3 4 (1/2) (1/2) (1/2) (by norm_num),
   convert_orthogonal_and_origin.2 demoLattice demoLatticeOK⟩


theorem getElem_flatMap_map {α β γ : Type} (l1 : List α) (l2 : List β) (f : α → β → γ)
    (i j : ℕ) (hi : i < l1.length) (hj : j < l2.length) :
    (l1.flatMap (fun a => l2.map (f a)))[i * l2.length + j]? =
      l1[i]?.bind (fun a => l2[j]?.map (f a)) := by
  induction l1 generalizing i with
  | nil => simp at hi
  | cons a rest ih =>
    cases i with
    | zero =>
      rw [List.flatMap_cons, Nat.zero_mul, Nat.zero_add, List.getElem?_append,
        if_pos (by simpa using hj)]
      simp
    | succ i =>
      rw [List.flatMap_cons,
        show (i + 1) * l2.length + j = (l2.map (f a)).length + (i * l2.length + j) by
          simp [Nat.succ_mul]; omega,
        List.getElem?_append, if_neg (by omega), Nat.add_sub_cancel_left]
      simp only [List.getElem?_cons_succ]
      exact ih i (by simpa using Nat.lt_of_succ_lt_succ (by simpa using hi))

/-- C8: `create_sphere` returns the row-major `N × N` grid of sphere samples
(`N*N` vertices, with the vertex at polar index `i`, azimuth index `j` placed
at position `i*N + j`) together with `2*(N-1)^2` index triangles, two per
grid cell; the crystal_structure.py copy agrees with the crystal3D.py one. -/
theorem create_sphere_grid_counts :
    ∀ (center : ℝ × ℝ × ℝ) (radius : ℝ) (n i j : ℕ), 2 ≤ n → i < n → j < n →
      (crystal3D.create_sphere center radius n).1.length = n * n ∧
      (crystal3D.create_sphere center radius n).2.length = 2 * (n - 1) ^ 2 ∧
      (crystal3D.create_sphere center radius n).1[i * n + j]? =
        some (crystal3D.sphereVertex center radius (linVal 0 Real.pi n i)
          (linVal 0 (2 * Real.pi) n j)) ∧
      crystal_structure.create_sphere center radius n =
        crystal3D.create_sphere center radius n := by
  intro c r n i j hn hi hj
  refine ⟨?_, ?_, ?_, rfl⟩
  · unfold crystal3D.create_sphere
    dsimp only
    simp [List.length_flatMap, linspace, List.map_map, Function.comp_def, List.map_const',
      List.sum_replicate, smul_eq_mul]
  · unfold crystal3D.create_sphere
    dsimp only
    simp [List.length_flatMap, List.map_map, Function.comp_def, List.map_const',
      List.sum_replicate, smul_eq_mul]
    ring
  · unfold crystal3D.create_sphere
    dsimp only
    have hL : (linspace 0 (2 * Real.pi) n).length = n := by simp [linspace]
    rw [show i * n + j = i * (linspace 0 (2 * Real.pi) n).length + j by rw [hL]]
    rw [getElem_flatMap_map _ _ _ i j (by simpa [linspace] using hi) (by rw [hL]; exact hj)]
    simp [linspace, List.getElem?_range hi, List.getElem?_range hj]

/-- C8 witness: resolution 3 gives 9 vertices and 8 triangles; the vertex at
grid position (1, 2) sits at flat index `1*3 + 2`. -/
theorem create_sphere_grid_counts_witness :
    (crystal3D.create_sphere (0, 0, 0) 1 3).1.length = 3 * 3 ∧
    (crystal3D.create_sphere (0, 0, 0) 1 3).2.length = 2 * (3 - 1) ^ 2 ∧
    (crystal3D.create_sphere (0, 0, 0) 1 3).1[1 * 3 + 2]? =
      some (crystal3D.sphereVertex (0, 0, 0) 1 (linVal 0 Real.pi 3 1)
        (linVal 0 (2 * Real.pi) 3 2)) ∧
    crystal_structure.create_sphere (0, 0, 0) 1 3 = crystal3D.create_sphere (0, 0, 0) 1 3 :=
  create_sphere_grid_counts (0, 0, 0) 1 3 1 2 (by norm_num) (by norm_num) (by norm_num)


theorem except_bind_err {α β : Type} (e : PyError) (f : α → Except PyError β) :
    ((Except.error e : Except PyError α) >>= f) = .error e := rfl

theorem script_body_3D_ok {file : Except PyError (List String)} {mode : Mode} {o : Outcome}
    (h : crystal3D.script_body file mode = .ok o) : o = .noData ∨ o = .plotted := by
  unfold crystal3D.script_body at h
  cases file with
  | error e => rw [except_bind_err] at h; exact absurd h (by simp)
  | ok lines =>
    rw [except_bind_ok] at h
    cases mode with
    | atoms =>
      cases hread : crystal3D.read_crystal_structure lines with
      | error e => rw [hread, except_bind_err] at h; exact absurd h (by simp)
      | ok atoms =>
        rw [hread, except_bind_ok] at h
        split_ifs at h with hempty
        · injection h with h
          exact Or.inl h.symm
        · injection h with h
          exact Or.inr h.symm
    | reflections =>
      cases hread : crystal3D.read_hkl_reflections lines with
      | error e => rw [hread, except_bind_err] at h; exact absurd h (by simp)
      | ok hkl =>
        rw [hread, except_bind_ok] at h
        split_ifs at h with hempty
        · injection h with h
          exact Or.inl h.symm
        · injection h with h
          exact Or.inr h.symm

theorem script_body_PC_ok {file : Except PyError (List String)} {o : Outcome}
    (h : plot_crystal.script_body file = .ok o) : o = .noData ∨ o = .plotted := by
  unfold plot_crystal.script_body at h
  cases file with
  | error e => rw [except_bind_err] at h; exact absurd h (by simp)
  | ok lines =>
    rw [except_bind_ok] at h
    cases hread : plot_crystal.read_hkl_file lines with
    | error e => rw [hread, except_bind_err] at h; exact absurd h (by simp)
    | ok hkl =>
      rw [hread, except_bind_ok] at h
      split_ifs at h with hempty
      · injection h with h
        exact Or.inl h.symm
      · injection h with h
        exact Or.inr h.symm

/-- C3 (amended): in crystal3D.py and plot_crystal.py, every modelled runtime
failure (a failing file read, or a parse exception raised inside a reader)
reaches the single top-level catch in `main`, which prints
`Error: <message>`; no run of those two scripts ends in an uncaught
exception.  crystal_structure.py's `main` has no such catch, so there a
failing file read escapes as an uncaught exception. -/
theorem toplevel_error_handling :
    (∀ (e : PyError) (mode : Mode), crystal3D.main (.error e) mode = .printedError e) ∧
    (∀ (file : Except PyError (List String)) (mode : Mode) (e : PyError),
      crystal3D.main file mode ≠ .uncaught e) ∧
    (∀ e : PyError, plot_crystal.main (.error e) = .printedError e) ∧
    (∀ (file : Except PyError (List String)) (e : PyError),
      plot_crystal.main file ≠ .uncaught e) ∧
    (∀ e : PyError, crystal_structure.main (.error e) = .uncaught e) := by
  refine ⟨fun e mode => rfl, ?_, fun e => rfl, ?_, fun e => rfl⟩
  · intro file mode e h
    unfold crystal3D.main at h
    rcases hb : crystal3D.script_body file mode with e' | o
    · rw [hb] at h
      exact Outcome.noConfusion h
    · rw [hb] at h
      rcases script_body_3D_ok hb with rfl | rfl <;> exact Outcome.noConfusion h
  · intro file e h
    unfold plot_crystal.main at h
    rcases hb : plot_crystal.script_body file with e' | o
    · rw [hb] at h
      exact Outcome.noConfusion h
    · rw [hb] at h
      rcases script_body_PC_ok hb with rfl | rfl <;> exact Outcome.noConfusion h

/-- C3 counterexample: a failed file read in crystal_structure.py ends as an
uncaught exception, not as a printed `Error: <message>`. -/
theorem crystal_structure_uncaught_cex :
    crystal_structure.main (.error .fileNotFound) = .uncaught .fileNotFound ∧
    crystal_structure.main (.error .fileNotFound) ≠ .printedError .fileNotFound :=
  ⟨rfl, fun h => Outcome.noConfusion h⟩


/-- C4 (a code bug in crystal_structure.py): the `# CELL` branch guards
`len(parts) >= 7` but reads `parts[7]`, so a `# CELL` line with exactly 7
fields raises `IndexError` instead of being skipped; a line with at least 8
fields parses fields 2..7 into a, b, c, alpha, beta, gamma, and one with at
most 6 fields is skipped silently. -/
theorem cell_line_seven_fields_index_error :
    crystal_structure.read_crystal_structure [cellLine7] = .error .indexError ∧
    crystal_structure.read_crystal_structure [cellLine8] = .ok ([], ⟨2, 3, 4, 90, 90, 90⟩) ∧
    crystal_structure.read_crystal_structure [cellLine6] = .ok ([], defaultLattice) := by
  refine ⟨?_, ?_, ?_⟩ <;> with_unfolding_all rfl

theorem readHKLAux_skip_pre (pre rest : List String)
    (hpre : ∀ l ∈ pre, pyContains l reflMarker = false) :
    crystal3D.readHKLAux (pre ++ rest) false = crystal3D.readHKLAux rest false := by
  induction pre with
  | nil => rfl
  | cons l ls ih =>
    have step : crystal3D.readHKLAux ((l :: ls) ++ rest) false =
        crystal3D.readHKLAux (ls ++ rest) false := by
      rw [List.cons_append]
      conv_lhs => unfold crystal3D.readHKLAux
      simp [hpre l (List.mem_cons_self l ls)]
    rw [step]
    exact ih (fun x hx => hpre x (List.mem_cons_of_mem l hx))

theorem readHKLAux_post (post : List String)
    (hpost : ∀ l ∈ post, qualifiesRefl l = true →
      pyContains l reflMarker = false ∧ (parseReflTuple (pySplit l)).isSome = true) :
    crystal3D.readHKLAux post true = .ok (specReflTuples post) := by
  induction post with
  | nil => rfl
  | cons l ls ih =>
    have ihl := ih (fun x hx hq => hpost x (List.mem_cons_of_mem l hx) hq)
    by_cases hm : pyContains l reflMarker = true
    · have hq : qualifiesRefl l = false := by
        by_cases hq' : qualifiesRefl l = true
        · have h1 := (hpost l (List.mem_cons_self l ls) hq').1
          rw [h1] at hm
          exact absurd hm (by simp)
        · simpa using hq'
      conv_lhs => unfold crystal3D.readHKLAux
      rw [if_pos hm, ihl]
      conv_rhs => unfold specReflTuples
      rw [hq]
      simp
    · by_cases hc : (!(pyStrip l == "") && !(pyStartsWith l "#")) = true
      · have hc' := hc
        simp only [Bool.and_eq_true] at hc'
        obtain ⟨hc1, hc2⟩ := hc'
        by_cases hlen : 6 ≤ (pySplit l).length
        · have hq : qualifiesRefl l = true := by
            unfold qualifiesRefl
            rw [hc1, hc2, decide_eq_true hlen]
            rfl
          rcases Option.isSome_iff_exists.mp
            (hpost l (List.mem_cons_self l ls) hq).2 with ⟨t, ht⟩
          conv_lhs => unfold crystal3D.readHKLAux
          rw [if_neg hm]
          simp only [Bool.true_and]
          rw [if_pos hc, if_pos hlen, ht]
          conv_rhs => unfold specReflTuples
          rw [hq, if_pos rfl, ht]
          dsimp only
          rw [ihl, except_bind_ok]
        · have hq : qualifiesRefl l = false := by
            unfold qualifiesRefl
            rw [decide_eq_false hlen]
            simp
          conv_lhs => unfold crystal3D.readHKLAux
          rw [if_neg hm]
          simp only [Bool.true_and]
          rw [if_pos hc, if_neg hlen, ihl]
          conv_rhs => unfold specReflTuples
          rw [hq]
          simp
      · have hq : qualifiesRefl l = false := by
          by_cases hq' : qualifiesRefl l = true
          · exfalso
            have hqt := hq'
            unfold qualifiesRefl at hqt
            simp only [Bool.and_eq_true] at hqt
            exact hc (by rw [hqt.1, hqt.2.1]; rfl)
          · simpa using hq'
        have hcf : (!(pyStrip l == "") && !(pyStartsWith l "#")) = false := by
          simpa using hc
        conv_lhs => unfold crystal3D.readHKLAux
        rw [if_neg hm]
        simp only [Bool.true_and]
        rw [hcf, if_neg (by simp), ihl]
        conv_rhs => unfold specReflTuples
        rw [hq]
        simp

/-- C6: the reflection readers of crystal3D.py and plot_crystal.py return
exactly one `(h, k, l, intensity)` tuple, in file order, for each line after
the header marker that is non-blank, does not start with `#`, and has at
least 6 whitespace-separated fields, taking h, k, l from fields 0-2 and the
intensity from field 5; every line before the header and every shorter
post-header line contributes nothing. -/
theorem read_hkl_reflections_tuples :
    ∀ (pre : List String) (hd : String) (post : List String),
      (∀ l ∈ pre, pyContains l reflMarker = false) →
      pyContains hd reflMarker = true →
      (∀ l ∈ post, qualifiesRefl l = true →
        pyContains l reflMarker = false ∧ (parseReflTuple (pySplit l)).isSome = true) →
      crystal3D.read_hkl_reflections (pre ++ hd :: post) = .ok (specReflTuples post) ∧
      plot_crystal.read_hkl_file (pre ++ hd :: post) = .ok (specReflTuples post) := by
  intro pre hd post hpre hhd hpost
  have key : crystal3D.readHKLAux (pre ++ hd :: post) false = .ok (specReflTuples post) := by
    rw [readHKLAux_skip_pre pre _ hpre]
    unfold crystal3D.readHKLAux
    rw [if_pos hhd]
    exact readHKLAux_post post hpost
  exact ⟨key, key⟩

/-- C6 witness: the demo file (two pre-header lines, the header, three valid
reflection lines and one 4-field line) yields exactly the three tuples, in
order. -/
theorem read_hkl_reflections_tuples_witness :
    crystal3D.read_hkl_reflections demoHKLLines =
      .ok [(1, 0, 0, 10.5), (0, 1, 0, 7.25), (2, 0, 0, 0.5)] ∧
    plot_crystal.read_hkl_file demoHKLLines =
      .ok [(1, 0, 0, 10.5), (0, 1, 0, 7.25), (2, 0, 0, 0.5)] := by
  have h := read_hkl_reflections_tuples ["some preamble", "# comment before header"]
    "# H   K   L     Mult    dspc                   |Fc|^2"
    ["  1   0   0   2   3.5   10.5", "  0   1   0   2   3.5   7.25", "1 1 1 4",
     "  2   0   0   4   1.75   0.5"]
    (by decide) (by decide) (by decide)
  have hs : specReflTuples ["  1   0   0   2   3.5   10.5", "  0   1   0   2   3.5   7.25",
      "1 1 1 4", "  2   0   0   4   1.75   0.5"] =
      [(1, 0, 0, 10.5), (0, 1, 0, 7.25), (2, 0, 0, 0.5)] := by
    with_unfolding_all rfl
  rw [hs] at h
  exact h
